import Mathlib

/-!
Verification development for the homelab-ops repository.

Shallow embedding of the three entry points:
  * `scripts/db_cli.py`        — namespace `DbCli`
  * `scripts/semaphore_cli.py` — namespace `SemaphoreCli`
  * `callback_plugins/review.py` — namespace `Review`

Python strings that we reason about character-by-character are modelled as
`List Char`; identifiers, dictionary keys and URL paths as `String`.
Python dictionaries (JSON objects, rows) are modelled as association lists
`Obj = List (String × Val)` with first-match lookup, which matches the
unique-key semantics of `dict`.
-/

namespace HomelabOps

/-- Python `str.strip()`: drop leading and trailing whitespace. -/
def pyStrip (s : List Char) : List Char :=
  ((s.dropWhile Char.isWhitespace).reverse.dropWhile Char.isWhitespace).reverse

/-- Python `s.rjust(w, c)`: left-pad `s` with `c` to width `w`
(no change when `s` is already at least `w` long). -/
def rjust (s : List Char) (w : Nat) (c : Char) : List Char :=
  List.replicate (w - s.length) c ++ s

/-- Python `s[-n:]`: the last `min n (length s)` characters. -/
def lastN (n : Nat) (s : List Char) : List Char :=
  s.drop (s.length - n)

/-- Python `s.upper()` (ASCII, which is all the code compares against). -/
def upperList (s : List Char) : List Char :=
  s.map Char.toUpper

/-- A JSON-ish scalar value, as stored in the dictionaries the CLIs handle. -/
inductive Val where
  | str (s : String)
  | num (n : Int)
  | bool (b : Bool)
  | null
  deriving DecidableEq, Repr

/-- Python `str(v)` for the scalar values above. -/
def pyStr : Val → String
  | Val.str s => s
  | Val.num n => toString n
  | Val.bool true => "True"
  | Val.bool false => "False"
  | Val.null => "None"

/-- A Python `dict` with `String` keys. -/
abbrev Obj := List (String × Val)

/-- Python `d.get(k)` / `d[k]`: first-match association-list lookup. -/
def getVal : Obj → String → Option Val
  | [], _ => none
  | (k', v) :: rest, k => if k' = k then some v else getVal rest k

/-- Python `d[k] = v`: replace the binding in place, or append a new one. -/
def setVal : Obj → String → Val → Obj
  | [], k, v => [(k, v)]
  | (k', v') :: rest, k, v =>
      if k' = k then (k, v) :: rest else (k', v') :: setVal rest k v

/-- Apply an optional assignment: `if x is not None: d[k] = x`. -/
def applyOpt (o : Obj) (k : String) (ov : Option Val) : Obj :=
  match ov with
  | none => o
  | some v => setVal o k v

/-- HTTP method of a request issued by the semaphore CLI. -/
inductive Method where
  | GET
  | POST
  | PUT
  | DELETE
  deriving DecidableEq, Repr

/-- One HTTP request: method and path. -/
structure Request where
  method : Method
  path : String
  deriving DecidableEq, Repr

-- ---------------------------------------------------------------------------
-- Basic lemmas about the dictionary model
-- ---------------------------------------------------------------------------

theorem getVal_setVal_self (o : Obj) (k : String) (v : Val) :
    getVal (setVal o k v) k = some v := by
  induction o with
  | nil => simp [setVal, getVal]
  | cons p rest ih =>
    by_cases h : p.1 = k
    · simp [setVal, h, getVal]
    · simp [setVal, h, getVal, ih]

theorem getVal_setVal_ne (o : Obj) (k k' : String) (v : Val) (h : k ≠ k') :
    getVal (setVal o k' v) k = getVal o k := by
  induction o with
  | nil => simp [setVal, getVal, Ne.symm h]
  | cons p rest ih =>
    by_cases hp : p.1 = k'
    · simp [setVal, hp, getVal, Ne.symm h]
    · simp [setVal, hp, getVal, ih]

theorem getVal_applyOpt_frame (o : Obj) (k k' : String) (ov : Option Val)
    (h : ov = none ∨ k ≠ k') :
    getVal (applyOpt o k' ov) k = getVal o k := by
  cases ov with
  | none => rfl
  | some v =>
    rcases h with h | h
    · cases h
    · exact getVal_setVal_ne o k k' v h

theorem getVal_applyOpt_self (o : Obj) (k : String) (v : Val) :
    getVal (applyOpt o k (some v)) k = some v :=
  getVal_setVal_self o k v

-- ---------------------------------------------------------------------------
-- C1: secret masking in `cmd_config_show` (db_cli.py:203, semaphore_cli.py:208)
-- ---------------------------------------------------------------------------

/-- `cfg["password"][-4:].rjust(len(cfg["password"]), "*") if cfg["password"] else ""`,
the masking expression shared by `db_cli.cmd_config_show` (line 203) and
`semaphore_cli.cmd_config_show` (line 208). -/
def maskSecret (secret : List Char) : List Char :=
  if secret = [] then [] else rjust (lastN 4 secret) secret.length '*'

theorem maskSecret_closed_form (secret : List Char) :
    maskSecret secret =
      List.replicate (secret.length - 4) '*' ++ secret.drop (secret.length - 4) := by
  by_cases h : secret = []
  · subst h; rfl
  · simp only [maskSecret, h, if_false, rjust, lastN, List.length_drop]
    congr 1
    congr 1
    omega

/-- What `config show` prints after `config init` saved `host`/`secret`
(db_cli.py:201-207, semaphore_cli.py:205-210, reading back the file written
by `save_config` with no environment overrides): the host/url as saved, the
secret masked. -/
structure ShownConfig where
  host : String
  secret : List Char
  deriving DecidableEq

/-- The `config show` output fields the claim is about. -/
def cmd_config_show (host : String) (secret : List Char) : ShownConfig :=
  { host := host, secret := maskSecret secret }

/-- C1 (amended): `config show` after `config init` reveals the same
host/url, and for a non-empty secret prints a value of the same length as
the secret, consisting of the secret's final characters (everything from
position `len − 4` on) preceded by `'*'` padding; it differs from the
literal secret whenever some character before the final four is not itself
`'*'`. -/
theorem C1_mask_theorem (host : String) (secret : List Char) (h : secret ≠ []) :
    (cmd_config_show host secret).host = host ∧
    (cmd_config_show host secret).secret = maskSecret secret ∧
    (maskSecret secret).length = secret.length ∧
    maskSecret secret =
      List.replicate (secret.length - 4) '*' ++ secret.drop (secret.length - 4) ∧
    (secret.take (secret.length - 4) ≠ List.replicate (secret.length - 4) '*' →
      maskSecret secret ≠ secret) := by
  refine ⟨rfl, rfl, ?_, maskSecret_closed_form secret, ?_⟩
  · rw [maskSecret_closed_form]
    simp [List.length_replicate, List.length_drop]
  · intro hne heq
    apply hne
    have hsplit : secret.take (secret.length - 4) ++ secret.drop (secret.length - 4)
        = secret := List.take_append_drop _ _
    rw [maskSecret_closed_form] at heq
    exact (List.append_cancel_right (heq.trans hsplit.symm)).symm

/-- C1 counterexample: for the two-character secret `"ab"`, the mask printed by
`config show` is the secret itself, refuting "a password/token value that is
never equal to the literal secret". -/
theorem C1_counterexample :
    ("ab".toList ≠ []) ∧ maskSecret "ab".toList = "ab".toList := by
  constructor
  · decide
  · decide

/-- C1 witness: the amended theorem applied to the concrete host `"db.local"`
and secret `"secretpw"`. -/
theorem C1_witness :
    (cmd_config_show "db.local" "secretpw".toList).host = "db.local" ∧
    maskSecret "secretpw".toList ≠ "secretpw".toList ∧
    (maskSecret "secretpw".toList).length = "secretpw".toList.length := by
  have h := C1_mask_theorem "db.local" "secretpw".toList (by decide)
  exact ⟨h.1, h.2.2.2.2 (by decide), h.2.2.1⟩

-- ---------------------------------------------------------------------------
-- C2: `query` read/write classification (db_cli.py:227-244, 105-121)
-- ---------------------------------------------------------------------------

namespace DbCli

open HomelabOps

/-- `db_cli.cmd_query` lines 236-237:
`is_write = not sql.upper().startswith("SELECT") and not ... ("SHOW") and not
... ("DESCRIBE") and not ... ("EXPLAIN")`, where `sql = args.sql.strip()`. -/
def isWriteStmt (sql : List Char) : Bool :=
  !("SELECT".toList.isPrefixOf (upperList sql)) &&
  !("SHOW".toList.isPrefixOf (upperList sql)) &&
  !("DESCRIBE".toList.isPrefixOf (upperList sql)) &&
  !("EXPLAIN".toList.isPrefixOf (upperList sql))

/-- The database cursor state visible to `run_query`: the rows `fetchall`
would return and the `rowcount` attribute. -/
structure MockCursor where
  rows : List Obj
  rowcount : Int
  deriving DecidableEq

/-- Outcome of `cmd_query`: the policy rejection (`error(...)`, exit 1,
nothing executed), or the value returned by `run_query` (rows for a read,
the affected-row count for a write — db_cli.py:111-114). -/
inductive QueryResult where
  | rejected
  | resultRows (rs : List Obj)
  | rowsAffected (n : Int)
  deriving DecidableEq

/-- `db_cli.run_query` result value (lines 105-121): with `write=True` it
commits and returns a dict holding `cur.rowcount`, otherwise `cur.fetchall()`. -/
def run_query (cur : MockCursor) (write : Bool) : QueryResult :=
  if write then QueryResult.rowsAffected cur.rowcount else QueryResult.resultRows cur.rows

/-- `db_cli.cmd_query` (lines 227-244): strip the SQL, classify it, reject an
unconfirmed write before executing anything, otherwise run it. -/
def cmd_query (sqlRaw : List Char) (writeFlag : Bool) (cur : MockCursor) : QueryResult :=
  let sql := pyStrip sqlRaw
  if isWriteStmt sql && !writeFlag then QueryResult.rejected
  else run_query cur (isWriteStmt sql)

/-- The spec's phrasing: after stripping, the statement starts
case-insensitively with the (uppercase) keyword `kw`. -/
def beginsWithCI (kw : List Char) (s : List Char) : Prop :=
  upperList ((pyStrip s).take kw.length) = kw

instance (kw s : List Char) : Decidable (beginsWithCI kw s) := by
  unfold beginsWithCI
  infer_instance

theorem isPrefixOf_upper_iff (kw s : List Char) :
    kw.isPrefixOf (upperList s) = true ↔ upperList (s.take kw.length) = kw := by
  rw [List.isPrefixOf_iff_prefix, List.prefix_iff_eq_take]
  unfold upperList
  rw [← List.map_take]
  exact ⟨fun h => h.symm, fun h => h.symm⟩

/-- If the stripped statement begins (case-insensitively) with keyword `kw`,
and keyword `rkw` conflicts with `kw` on their common prefix, then the
`startswith(rkw)` test in `cmd_query` is false. -/
theorem not_isPrefixOf_of_conflict (kw rkw s : List Char)
    (h : upperList (s.take kw.length) = kw)
    (hconf : rkw.take kw.length ≠ kw.take rkw.length) :
    rkw.isPrefixOf (upperList s) = false := by
  rw [Bool.eq_false_iff]
  intro hp
  rw [isPrefixOf_upper_iff] at hp
  apply hconf
  have h1 : rkw.take kw.length = upperList (s.take (min kw.length rkw.length)) := by
    conv_lhs => rw [← hp]
    unfold upperList
    rw [← List.map_take, List.take_take]
  have h2 : kw.take rkw.length = upperList (s.take (min rkw.length kw.length)) := by
    conv_lhs => rw [← h]
    unfold upperList
    rw [← List.map_take, List.take_take]
  rw [h1, h2, Nat.min_comm]

/-- C2: the statement is classified as a read (not a write) iff, after
stripping, it begins case-insensitively with SELECT, SHOW, DESCRIBE or
EXPLAIN; a SELECT statement is executed as a read whether or not `--write`
is given; an INSERT/UPDATE/DELETE statement is rejected without `--write`
and, with it, returns the affected-row count instead of rows. -/
theorem C2_query_theorem (sqlRaw : List Char) (writeFlag : Bool) (cur : MockCursor) :
    (isWriteStmt (pyStrip sqlRaw) = false ↔
       (beginsWithCI "SELECT".toList sqlRaw ∨ beginsWithCI "SHOW".toList sqlRaw ∨
        beginsWithCI "DESCRIBE".toList sqlRaw ∨ beginsWithCI "EXPLAIN".toList sqlRaw)) ∧
    (beginsWithCI "SELECT".toList sqlRaw →
       cmd_query sqlRaw writeFlag cur = QueryResult.resultRows cur.rows) ∧
    ((beginsWithCI "INSERT".toList sqlRaw ∨ beginsWithCI "UPDATE".toList sqlRaw ∨
      beginsWithCI "DELETE".toList sqlRaw) →
       cmd_query sqlRaw false cur = QueryResult.rejected ∧
       cmd_query sqlRaw true cur = QueryResult.rowsAffected cur.rowcount) := by
  have hiff : isWriteStmt (pyStrip sqlRaw) = false ↔
      (beginsWithCI "SELECT".toList sqlRaw ∨ beginsWithCI "SHOW".toList sqlRaw ∨
       beginsWithCI "DESCRIBE".toList sqlRaw ∨ beginsWithCI "EXPLAIN".toList sqlRaw) := by
    unfold isWriteStmt beginsWithCI
    simp only [Bool.and_eq_false_iff, Bool.not_eq_false', isPrefixOf_upper_iff]
    tauto
  refine ⟨hiff, ?_, ?_⟩
  · intro hsel
    have hr : isWriteStmt (pyStrip sqlRaw) = false := hiff.mpr (Or.inl hsel)
    unfold cmd_query run_query
    simp [hr]
  · intro hw
    have hwr : isWriteStmt (pyStrip sqlRaw) = true := by
      unfold isWriteStmt
      rcases hw with h | h | h
      · rw [not_isPrefixOf_of_conflict "INSERT".toList "SELECT".toList _ h (by decide),
            not_isPrefixOf_of_conflict "INSERT".toList "SHOW".toList _ h (by decide),
            not_isPrefixOf_of_conflict "INSERT".toList "DESCRIBE".toList _ h (by decide),
            not_isPrefixOf_of_conflict "INSERT".toList "EXPLAIN".toList _ h (by decide)]
        rfl
      · rw [not_isPrefixOf_of_conflict "UPDATE".toList "SELECT".toList _ h (by decide),
            not_isPrefixOf_of_conflict "UPDATE".toList "SHOW".toList _ h (by decide),
            not_isPrefixOf_of_conflict "UPDATE".toList "DESCRIBE".toList _ h (by decide),
            not_isPrefixOf_of_conflict "UPDATE".toList "EXPLAIN".toList _ h (by decide)]
        rfl
      · rw [not_isPrefixOf_of_conflict "DELETE".toList "SELECT".toList _ h (by decide),
            not_isPrefixOf_of_conflict "DELETE".toList "SHOW".toList _ h (by decide),
            not_isPrefixOf_of_conflict "DELETE".toList "DESCRIBE".toList _ h (by decide),
            not_isPrefixOf_of_conflict "DELETE".toList "EXPLAIN".toList _ h (by decide)]
        rfl
    constructor
    · unfold cmd_query
      simp [hwr]
    · unfold cmd_query run_query
      simp [hwr]

/-- C2 witness: the theorem applied to `"  dElEtE FROM t"`, which is rejected
without `--write` and reports an affected-row count with it, and to a
`"select 1"` statement, which executes as a read even without `--write`. -/
theorem C2_query_witness :
    cmd_query "  dElEtE FROM t".toList false ⟨[], 3⟩ = QueryResult.rejected ∧
    cmd_query "  dElEtE FROM t".toList true ⟨[], 3⟩ = QueryResult.rowsAffected 3 ∧
    cmd_query "select 1".toList false ⟨[[("x", Val.num 1)]], 0⟩ =
      QueryResult.resultRows [[("x", Val.num 1)]] := by
  have g1 := C2_query_theorem "  dElEtE FROM t".toList false ⟨[], 3⟩
  have g2 := C2_query_theorem "select 1".toList false ⟨[[("x", Val.num 1)]], 0⟩
  have h1 := g1.2.2 (Or.inr (Or.inr (by decide)))
  have h2 := g2.2.1 (by decide)
  exact ⟨h1.1, h1.2, h2⟩

end DbCli

-- ---------------------------------------------------------------------------
-- C3: unconfirmed delete subcommands (semaphore_cli.py:498-508, 542-552,
--     581-591, 642-652)
-- ---------------------------------------------------------------------------

namespace SemaphoreCli

open HomelabOps

/-- Observable behaviour of one delete subcommand invocation: the HTTP
requests it issues (in order), the process exit code, and the detail line
printed to stderr by `error(...)` (if any). -/
structure CmdTrace where
  requests : List Request
  exitCode : Nat
  errorDetail : Option String
  deriving DecidableEq

/-- Python `o.get("name", "?")` rendered into the f-string. -/
def nameOrQ (o : Obj) : String :=
  pyStr ((getVal o "name").getD (Val.str "?"))

/-- `semaphore_cli.cmd_template_delete` (lines 498-508). `fetched` is the
body the server returns for the GET issued on the unconfirmed path. -/
def cmd_template_delete (project tid : Nat) (confirm : Bool) (fetched : Obj) : CmdTrace :=
  let base := "/api/project/" ++ toString project ++ "/templates/" ++ toString tid
  if !confirm then
    { requests := [⟨Method.GET, base⟩]
      exitCode := 1
      errorDetail := some ("Target: Template " ++ toString tid ++ " \"" ++
        nameOrQ fetched ++ "\"") }
  else
    { requests := [⟨Method.DELETE, base⟩], exitCode := 0, errorDetail := none }

/-- `semaphore_cli.cmd_schedule_delete` (lines 542-552). -/
def cmd_schedule_delete (project sid : Nat) (confirm : Bool) (fetched : Obj) : CmdTrace :=
  let base := "/api/project/" ++ toString project ++ "/schedules/" ++ toString sid
  if !confirm then
    { requests := [⟨Method.GET, base⟩]
      exitCode := 1
      errorDetail := some ("Target: Schedule " ++ toString sid ++ " \"" ++
        nameOrQ fetched ++ "\"") }
  else
    { requests := [⟨Method.DELETE, base⟩], exitCode := 0, errorDetail := none }

/-- `semaphore_cli.cmd_env_delete` (lines 581-591). -/
def cmd_env_delete (project eid : Nat) (confirm : Bool) (fetched : Obj) : CmdTrace :=
  let base := "/api/project/" ++ toString project ++ "/environment/" ++ toString eid
  if !confirm then
    { requests := [⟨Method.GET, base⟩]
      exitCode := 1
      errorDetail := some ("Target: Environment " ++ toString eid ++ " \"" ++
        nameOrQ fetched ++ "\"") }
  else
    { requests := [⟨Method.DELETE, base⟩], exitCode := 0, errorDetail := none }

/-- `semaphore_cli.cmd_integration_delete` (lines 642-652). -/
def cmd_integration_delete (project iid : Nat) (confirm : Bool) (fetched : Obj) : CmdTrace :=
  let base := "/api/project/" ++ toString project ++ "/integrations/" ++ toString iid
  if !confirm then
    { requests := [⟨Method.GET, base⟩]
      exitCode := 1
      errorDetail := some ("Target: Integration " ++ toString iid ++ " \"" ++
        nameOrQ fetched ++ "\"") }
  else
    { requests := [⟨Method.DELETE, base⟩], exitCode := 0, errorDetail := none }

/-- The policy-rejection behaviour C3 claims: exit code 1, an error detail
that contains the target's name, exactly one request which is a GET, and in
particular no DELETE request. -/
def rejectsUnconfirmed (t : CmdTrace) (nm : String) : Prop :=
  t.exitCode = 1 ∧
  (∃ a b, t.errorDetail = some (a ++ (nm ++ b))) ∧
  (∃ p, t.requests = [⟨Method.GET, p⟩]) ∧
  (∀ r ∈ t.requests, r.method ≠ Method.DELETE)

theorem rejectsUnconfirmed_of_shape (pre post : String) (p : String) (nm : String)
    (t : CmdTrace)
    (ht : t = { requests := [⟨Method.GET, p⟩], exitCode := 1,
                errorDetail := some (pre ++ (nm ++ post)) }) :
    rejectsUnconfirmed t nm := by
  subst ht
  refine ⟨rfl, ⟨pre, post, rfl⟩, ⟨p, rfl⟩, ?_⟩
  intro r hr
  simp only [List.mem_singleton] at hr
  subst hr
  intro hc
  exact Method.noConfusion hc

/-- C3: every delete subcommand (template, schedule, environment,
integration) invoked without `--confirm` issues a single GET (so the remote
state is untouched: no DELETE is ever sent), prints an error detail
containing the fetched target's current name, and exits with code 1. -/
theorem C3_delete_theorem (project i : Nat) (fetched : Obj) (nm : String)
    (hnm : getVal fetched "name" = some (Val.str nm)) :
    rejectsUnconfirmed (cmd_template_delete project i false fetched) nm ∧
    rejectsUnconfirmed (cmd_schedule_delete project i false fetched) nm ∧
    rejectsUnconfirmed (cmd_env_delete project i false fetched) nm ∧
    rejectsUnconfirmed (cmd_integration_delete project i false fetched) nm := by
  have hname : nameOrQ fetched = nm := by
    unfold nameOrQ
    rw [hnm]
    rfl
  refine ⟨?_, ?_, ?_, ?_⟩
  · apply rejectsUnconfirmed_of_shape
      ("Target: Template " ++ toString i ++ " \"") "\""
      ("/api/project/" ++ toString project ++ "/templates/" ++ toString i) nm
    unfold cmd_template_delete
    rw [hname]
    simp [String.append_assoc]
  · apply rejectsUnconfirmed_of_shape
      ("Target: Schedule " ++ toString i ++ " \"") "\""
      ("/api/project/" ++ toString project ++ "/schedules/" ++ toString i) nm
    unfold cmd_schedule_delete
    rw [hname]
    simp [String.append_assoc]
  · apply rejectsUnconfirmed_of_shape
      ("Target: Environment " ++ toString i ++ " \"") "\""
      ("/api/project/" ++ toString project ++ "/environment/" ++ toString i) nm
    unfold cmd_env_delete
    rw [hname]
    simp [String.append_assoc]
  · apply rejectsUnconfirmed_of_shape
      ("Target: Integration " ++ toString i ++ " \"") "\""
      ("/api/project/" ++ toString project ++ "/integrations/" ++ toString i) nm
    unfold cmd_integration_delete
    rw [hname]
    simp [String.append_assoc]

/-- C3 witness: the theorem applied to `schedule delete 7` without
`--confirm` against a schedule named `"Nightly"`. -/
theorem C3_delete_witness :
    rejectsUnconfirmed (cmd_schedule_delete 1 7 false [("name", Val.str "Nightly")])
      "Nightly" :=
  (C3_delete_theorem 1 7 [("name", Val.str "Nightly")] "Nightly" (by decide)).2.1

-- ---------------------------------------------------------------------------
-- C4 / C5: the `task run --wait/--tail` poll loop (semaphore_cli.py:236-277)
-- ---------------------------------------------------------------------------

/-- `TERMINAL_STATUSES` (semaphore_cli.py:34). -/
def TERMINAL_STATUSES : List String := ["success", "error", "stopped", "rejected"]

/-- `task.get("status", "")` (semaphore_cli.py:274). -/
def statusOf (t : Obj) : Val :=
  (getVal t "status").getD (Val.str "")

/-- `status in TERMINAL_STATUSES` (semaphore_cli.py:275); a non-string value
is never a member of the string set. -/
def isTerminalVal : Val → Bool
  | Val.str s => TERMINAL_STATUSES.contains s
  | _ => false

/-- What the poll loop produces when it terminates: the final task object it
prints, the process exit code, and how many times the task-status endpoint
was fetched. -/
structure PollOutcome where
  finalTask : Obj
  exitCode : Nat
  polls : Nat
  deriving DecidableEq

/-- The `while True` poll loop of `cmd_task_run` (semaphore_cli.py:263-277),
without `--tail`: each iteration sleeps, fetches the task (the server's reply
to the `i`-th fetch is `fetch i`), and exits when the status is terminal with
code 0 for `"success"` and 2 otherwise.  `fuel` bounds how many iterations we
observe; `none` means the loop has not terminated within `fuel` polls. -/
def taskWaitLoop (fetch : Nat → Obj) : Nat → Nat → Option PollOutcome
  | _, 0 => none
  | i, fuel + 1 =>
    let task := fetch i
    let status := statusOf task
    if isTerminalVal status then
      some { finalTask := task
             exitCode := if status = Val.str "success" then 0 else 2
             polls := i + 1 }
    else
      taskWaitLoop fetch (i + 1) fuel

/-- C4: whenever the poll loop terminates, the final task's status is in the
terminal set and the exit code is 0 exactly for `"success"` and 2 otherwise;
and if no fetch ever reports a terminal status, the loop never terminates
(no observation bound suffices). -/
theorem C4_poll_theorem (fetch : Nat → Obj) :
    (∀ i fuel out, taskWaitLoop fetch i fuel = some out →
       isTerminalVal (statusOf out.finalTask) = true ∧
       (out.exitCode = 0 ↔ statusOf out.finalTask = Val.str "success") ∧
       (statusOf out.finalTask ≠ Val.str "success" → out.exitCode = 2)) ∧
    ((∀ i, isTerminalVal (statusOf (fetch i)) = false) →
       ∀ fuel i, taskWaitLoop fetch i fuel = none) := by
  constructor
  · intro i fuel
    induction fuel generalizing i with
    | zero => intro out h; cases h
    | succ n ih =>
      intro out h
      unfold taskWaitLoop at h
      by_cases hterm : isTerminalVal (statusOf (fetch i)) = true
      · simp only [hterm, if_true] at h
        cases h
        refine ⟨hterm, ?_, ?_⟩
        · by_cases hs : statusOf (fetch i) = Val.str "success" <;> simp [hs]
        · intro hns
          simp [hns]
      · simp only [Bool.not_eq_true] at hterm
        simp only [hterm, Bool.false_eq_true, if_false] at h
        exact ih (i + 1) out h
  · intro hnever fuel
    induction fuel with
    | zero => intro i; rfl
    | succ n ih =>
      intro i
      unfold taskWaitLoop
      simp only [hnever i, Bool.false_eq_true, if_false]
      exact ih (i + 1)

/-- C4 witness: the theorem applied to a server whose first reply is already
the terminal status `"error"` (exit code 2), and to a server that always
reports `"running"` (the loop makes no progress in 5 observed polls). -/
theorem C4_poll_witness :
    isTerminalVal (statusOf [("status", Val.str "error")]) = true ∧
    (⟨[("status", Val.str "error")], 2, 1⟩ : PollOutcome).exitCode = 2 ∧
    taskWaitLoop (fun _ => [("status", Val.str "running")]) 0 5 = none := by
  have h1 := (C4_poll_theorem (fun _ => [("status", Val.str "error")])).1 0 1
    ⟨[("status", Val.str "error")], 2, 1⟩ (by decide)
  have h2 := (C4_poll_theorem (fun _ => [("status", Val.str "running")])).2
    (fun _ => by decide) 5 0
  exact ⟨h1.1, h1.2.2 (by decide), h2⟩

/-- The server of claim C5: the first status fetch reports `"running"`, every
later one reports `"success"`; the task object is task 5's. -/
def C5fetch : Nat → Obj := fun n =>
  if n = 0 then [("id", Val.num 5), ("status", Val.str "running")]
  else [("id", Val.num 5), ("status", Val.str "success")]

/-- C5: `task run 5 --wait --poll 1` against that server has not terminated
after one status fetch, and terminates at the second fetch — exactly two
polls — printing the final task object (status `"success"`) and exiting 0. -/
theorem C5_run_theorem :
    taskWaitLoop C5fetch 0 1 = none ∧
    taskWaitLoop C5fetch 0 2 =
      some { finalTask := [("id", Val.num 5), ("status", Val.str "success")]
             exitCode := 0
             polls := 2 } := by
  constructor
  · decide
  · decide

-- ---------------------------------------------------------------------------
-- C6: `update` subcommands (semaphore_cli.py:470-495, 525-539, 568-578)
-- ---------------------------------------------------------------------------

/-- Flags of `template update` (semaphore_cli.py:755-763): `None` when the
flag was not supplied on the command line. -/
structure TemplateUpdateArgs where
  name : Option String
  playbook : Option String
  inventory_id : Option Int
  environment_id : Option Int
  view_id : Option Int
  arguments : Option String
  description : Option String
  deriving DecidableEq

/-- Flags of `schedule update` (semaphore_cli.py:790-797): `--active` and
`--inactive` are `store_true` booleans. -/
structure ScheduleUpdateArgs where
  cron : Option String
  name : Option String
  active : Bool
  inactive : Bool
  deriving DecidableEq

/-- Flags of `env update` (semaphore_cli.py:818-822). -/
structure EnvUpdateArgs where
  name : Option String
  json_vars : Option String
  deriving DecidableEq

/-- `if flag: d[k] = v` (the `--active` / `--inactive` assignments). -/
def applyFlag (o : Obj) (k : String) (b : Bool) (v : Val) : Obj :=
  if b then setVal o k v else o

/-- The field assignments of `cmd_template_update` (lines 474-487) applied to
the fetched object `current`, in source order. -/
def templateMerge (current : Obj) (a : TemplateUpdateArgs) : Obj :=
  applyOpt (applyOpt (applyOpt (applyOpt (applyOpt (applyOpt (applyOpt current
    "name" (a.name.map Val.str))
    "playbook" (a.playbook.map Val.str))
    "inventory_id" (a.inventory_id.map Val.num))
    "environment_id" (a.environment_id.map Val.num))
    "view_id" (a.view_id.map Val.num))
    "arguments" (a.arguments.map Val.str))
    "description" (a.description.map Val.str)

/-- The field assignments of `cmd_schedule_update` (lines 529-536), in source
order (`--inactive` is applied after `--active`). -/
def scheduleMerge (current : Obj) (a : ScheduleUpdateArgs) : Obj :=
  applyFlag (applyFlag (applyOpt (applyOpt current
    "cron_format" (a.cron.map Val.str))
    "name" (a.name.map Val.str))
    "active" a.active (Val.bool true))
    "active" a.inactive (Val.bool false)

/-- The field assignments of `cmd_env_update` (lines 572-575). -/
def envMerge (current : Obj) (a : EnvUpdateArgs) : Obj :=
  applyOpt (applyOpt current
    "name" (a.name.map Val.str))
    "json" (a.json_vars.map Val.str)

/-- Observable behaviour of one `update` subcommand: requests in order, the
body of the PUT, and the object finally displayed. -/
structure UpdateTrace where
  requests : List Request
  putBody : Obj
  displayed : Obj
  deriving DecidableEq

def templatePath (project tid : Nat) : String :=
  "/api/project/" ++ toString project ++ "/templates/" ++ toString tid

def schedulePath (project sid : Nat) : String :=
  "/api/project/" ++ toString project ++ "/schedules/" ++ toString sid

def envPath (project eid : Nat) : String :=
  "/api/project/" ++ toString project ++ "/environment/" ++ toString eid

/-- `semaphore_cli.cmd_template_update` (lines 470-495): GET the current
object, merge the supplied flags into it, PUT the merged object, re-GET and
display the result.  `current` is the first GET's reply, `refetched` the
final GET's reply. -/
def cmd_template_update (project tid : Nat) (a : TemplateUpdateArgs)
    (current refetched : Obj) : UpdateTrace :=
  { requests := [⟨Method.GET, templatePath project tid⟩,
                 ⟨Method.PUT, templatePath project tid⟩,
                 ⟨Method.GET, templatePath project tid⟩]
    putBody := templateMerge current a
    displayed := refetched }

/-- `semaphore_cli.cmd_schedule_update` (lines 525-539). -/
def cmd_schedule_update (project sid : Nat) (a : ScheduleUpdateArgs)
    (current refetched : Obj) : UpdateTrace :=
  { requests := [⟨Method.GET, schedulePath project sid⟩,
                 ⟨Method.PUT, schedulePath project sid⟩,
                 ⟨Method.GET, schedulePath project sid⟩]
    putBody := scheduleMerge current a
    displayed := refetched }

/-- `semaphore_cli.cmd_env_update` (lines 568-578). -/
def cmd_env_update (project eid : Nat) (a : EnvUpdateArgs)
    (current refetched : Obj) : UpdateTrace :=
  { requests := [⟨Method.GET, envPath project eid⟩,
                 ⟨Method.PUT, envPath project eid⟩,
                 ⟨Method.GET, envPath project eid⟩]
    putBody := envMerge current a
    displayed := refetched }

theorem mapOpt_none_of_none {α β : Type} {o : Option α} (f : α → β) (h : o = none) :
    o.map f = none := by
  rw [h]
  rfl

theorem getVal_applyFlag_frame (o : Obj) (k k' : String) (b : Bool) (v : Val)
    (h : b = false ∨ k ≠ k') :
    getVal (applyFlag o k' b v) k = getVal o k := by
  rcases h with h | h
  · rw [h]; rfl
  · unfold applyFlag
    by_cases hb : b
    · rw [if_pos hb]
      exact getVal_setVal_ne o k k' v h
    · rw [if_neg hb]

theorem templateMerge_frame (current : Obj) (a : TemplateUpdateArgs) (k : String)
    (h1 : a.name = none ∨ k ≠ "name")
    (h2 : a.playbook = none ∨ k ≠ "playbook")
    (h3 : a.inventory_id = none ∨ k ≠ "inventory_id")
    (h4 : a.environment_id = none ∨ k ≠ "environment_id")
    (h5 : a.view_id = none ∨ k ≠ "view_id")
    (h6 : a.arguments = none ∨ k ≠ "arguments")
    (h7 : a.description = none ∨ k ≠ "description") :
    getVal (templateMerge current a) k = getVal current k := by
  unfold templateMerge
  rw [getVal_applyOpt_frame _ _ _ _ (h7.imp (mapOpt_none_of_none _) id),
      getVal_applyOpt_frame _ _ _ _ (h6.imp (mapOpt_none_of_none _) id),
      getVal_applyOpt_frame _ _ _ _ (h5.imp (mapOpt_none_of_none _) id),
      getVal_applyOpt_frame _ _ _ _ (h4.imp (mapOpt_none_of_none _) id),
      getVal_applyOpt_frame _ _ _ _ (h3.imp (mapOpt_none_of_none _) id),
      getVal_applyOpt_frame _ _ _ _ (h2.imp (mapOpt_none_of_none _) id),
      getVal_applyOpt_frame _ _ _ _ (h1.imp (mapOpt_none_of_none _) id)]

theorem scheduleMerge_frame (current : Obj) (a : ScheduleUpdateArgs) (k : String)
    (h1 : a.cron = none ∨ k ≠ "cron_format")
    (h2 : a.name = none ∨ k ≠ "name")
    (h3 : (a.active = false ∧ a.inactive = false) ∨ k ≠ "active") :
    getVal (scheduleMerge current a) k = getVal current k := by
  unfold scheduleMerge
  rw [getVal_applyFlag_frame _ _ _ _ _ (h3.imp And.right id),
      getVal_applyFlag_frame _ _ _ _ _ (h3.imp And.left id),
      getVal_applyOpt_frame _ _ _ _ (h2.imp (mapOpt_none_of_none _) id),
      getVal_applyOpt_frame _ _ _ _ (h1.imp (mapOpt_none_of_none _) id)]

theorem envMerge_frame (current : Obj) (a : EnvUpdateArgs) (k : String)
    (h1 : a.name = none ∨ k ≠ "name")
    (h2 : a.json_vars = none ∨ k ≠ "json") :
    getVal (envMerge current a) k = getVal current k := by
  unfold envMerge
  rw [getVal_applyOpt_frame _ _ _ _ (h2.imp (mapOpt_none_of_none _) id),
      getVal_applyOpt_frame _ _ _ _ (h1.imp (mapOpt_none_of_none _) id)]

theorem templateMerge_sets (current : Obj) (a : TemplateUpdateArgs) :
    (∀ s, a.name = some s →
        getVal (templateMerge current a) "name" = some (Val.str s)) ∧
    (∀ s, a.playbook = some s →
        getVal (templateMerge current a) "playbook" = some (Val.str s)) ∧
    (∀ n, a.inventory_id = some n →
        getVal (templateMerge current a) "inventory_id" = some (Val.num n)) ∧
    (∀ n, a.environment_id = some n →
        getVal (templateMerge current a) "environment_id" = some (Val.num n)) ∧
    (∀ n, a.view_id = some n →
        getVal (templateMerge current a) "view_id" = some (Val.num n)) ∧
    (∀ s, a.arguments = some s →
        getVal (templateMerge current a) "arguments" = some (Val.str s)) ∧
    (∀ s, a.description = some s →
        getVal (templateMerge current a) "description" = some (Val.str s)) := by
  unfold templateMerge
  refine ⟨?_, ?_, ?_, ?_, ?_, ?_, ?_⟩
  · intro s hx
    rw [getVal_applyOpt_frame _ "name" "description" _ (Or.inr (by decide)),
        getVal_applyOpt_frame _ "name" "arguments" _ (Or.inr (by decide)),
        getVal_applyOpt_frame _ "name" "view_id" _ (Or.inr (by decide)),
        getVal_applyOpt_frame _ "name" "environment_id" _ (Or.inr (by decide)),
        getVal_applyOpt_frame _ "name" "inventory_id" _ (Or.inr (by decide)),
        getVal_applyOpt_frame _ "name" "playbook" _ (Or.inr (by decide)), hx]
    exact getVal_applyOpt_self current "name" (Val.str s)
  · intro s hx
    rw [getVal_applyOpt_frame _ "playbook" "description" _ (Or.inr (by decide)),
        getVal_applyOpt_frame _ "playbook" "arguments" _ (Or.inr (by decide)),
        getVal_applyOpt_frame _ "playbook" "view_id" _ (Or.inr (by decide)),
        getVal_applyOpt_frame _ "playbook" "environment_id" _ (Or.inr (by decide)),
        getVal_applyOpt_frame _ "playbook" "inventory_id" _ (Or.inr (by decide)), hx]
    exact getVal_applyOpt_self _ "playbook" (Val.str s)
  · intro n hx
    rw [getVal_applyOpt_frame _ "inventory_id" "description" _ (Or.inr (by decide)),
        getVal_applyOpt_frame _ "inventory_id" "arguments" _ (Or.inr (by decide)),
        getVal_applyOpt_frame _ "inventory_id" "view_id" _ (Or.inr (by decide)),
        getVal_applyOpt_frame _ "inventory_id" "environment_id" _ (Or.inr (by decide)),
        hx]
    exact getVal_applyOpt_self _ "inventory_id" (Val.num n)
  · intro n hx
    rw [getVal_applyOpt_frame _ "environment_id" "description" _ (Or.inr (by decide)),
        getVal_applyOpt_frame _ "environment_id" "arguments" _ (Or.inr (by decide)),
        getVal_applyOpt_frame _ "environment_id" "view_id" _ (Or.inr (by decide)), hx]
    exact getVal_applyOpt_self _ "environment_id" (Val.num n)
  · intro n hx
    rw [getVal_applyOpt_frame _ "view_id" "description" _ (Or.inr (by decide)),
        getVal_applyOpt_frame _ "view_id" "arguments" _ (Or.inr (by decide)), hx]
    exact getVal_applyOpt_self _ "view_id" (Val.num n)
  · intro s hx
    rw [getVal_applyOpt_frame _ "arguments" "description" _ (Or.inr (by decide)), hx]
    exact getVal_applyOpt_self _ "arguments" (Val.str s)
  · intro s hx
    rw [hx]
    exact getVal_applyOpt_self _ "description" (Val.str s)

theorem scheduleMerge_sets (current : Obj) (a : ScheduleUpdateArgs) :
    (∀ s, a.cron = some s →
        getVal (scheduleMerge current a) "cron_format" = some (Val.str s)) ∧
    (∀ s, a.name = some s →
        getVal (scheduleMerge current a) "name" = some (Val.str s)) ∧
    (a.inactive = true →
        getVal (scheduleMerge current a) "active" = some (Val.bool false)) ∧
    (a.active = true → a.inactive = false →
        getVal (scheduleMerge current a) "active" = some (Val.bool true)) := by
  unfold scheduleMerge
  refine ⟨?_, ?_, ?_, ?_⟩
  · intro s hx
    rw [getVal_applyFlag_frame _ "cron_format" "active" _ _ (Or.inr (by decide)),
        getVal_applyFlag_frame _ "cron_format" "active" _ _ (Or.inr (by decide)),
        getVal_applyOpt_frame _ "cron_format" "name" _ (Or.inr (by decide)), hx]
    exact getVal_applyOpt_self _ "cron_format" (Val.str s)
  · intro s hx
    rw [getVal_applyFlag_frame _ "name" "active" _ _ (Or.inr (by decide)),
        getVal_applyFlag_frame _ "name" "active" _ _ (Or.inr (by decide)), hx]
    exact getVal_applyOpt_self _ "name" (Val.str s)
  · intro hi
    rw [hi]
    unfold applyFlag
    rw [if_pos rfl]
    exact getVal_setVal_self _ "active" (Val.bool false)
  · intro ha hi
    rw [hi, ha]
    unfold applyFlag
    rw [if_neg (by decide), if_pos rfl]
    exact getVal_setVal_self _ "active" (Val.bool true)

theorem envMerge_sets (current : Obj) (a : EnvUpdateArgs) :
    (∀ s, a.name = some s →
        getVal (envMerge current a) "name" = some (Val.str s)) ∧
    (∀ s, a.json_vars = some s →
        getVal (envMerge current a) "json" = some (Val.str s)) := by
  unfold envMerge
  constructor
  · intro s hx
    rw [getVal_applyOpt_frame _ "name" "json" _ (Or.inr (by decide)), hx]
    exact getVal_applyOpt_self _ "name" (Val.str s)
  · intro s hx
    rw [hx]
    exact getVal_applyOpt_self _ "json" (Val.str s)

/-- C6: each `update` subcommand is a read-modify-write: a GET of the current
object, a PUT of the merged object, a final GET whose reply is displayed;
a field whose flag was not supplied is sent back in the PUT body unchanged,
and a field whose flag was supplied is overwritten with the flag's value. -/
theorem C6_update_theorem (project i : Nat) (current refetched : Obj) (k : String)
    (aT : TemplateUpdateArgs) (aS : ScheduleUpdateArgs) (aE : EnvUpdateArgs) :
    (cmd_template_update project i aT current refetched =
      { requests := [⟨Method.GET, templatePath project i⟩,
                     ⟨Method.PUT, templatePath project i⟩,
                     ⟨Method.GET, templatePath project i⟩]
        putBody := templateMerge current aT
        displayed := refetched } ∧
     cmd_schedule_update project i aS current refetched =
      { requests := [⟨Method.GET, schedulePath project i⟩,
                     ⟨Method.PUT, schedulePath project i⟩,
                     ⟨Method.GET, schedulePath project i⟩]
        putBody := scheduleMerge current aS
        displayed := refetched } ∧
     cmd_env_update project i aE current refetched =
      { requests := [⟨Method.GET, envPath project i⟩,
                     ⟨Method.PUT, envPath project i⟩,
                     ⟨Method.GET, envPath project i⟩]
        putBody := envMerge current aE
        displayed := refetched }) ∧
    ((aT.name = none ∨ k ≠ "name") → (aT.playbook = none ∨ k ≠ "playbook") →
     (aT.inventory_id = none ∨ k ≠ "inventory_id") →
     (aT.environment_id = none ∨ k ≠ "environment_id") →
     (aT.view_id = none ∨ k ≠ "view_id") → (aT.arguments = none ∨ k ≠ "arguments") →
     (aT.description = none ∨ k ≠ "description") →
        getVal (cmd_template_update project i aT current refetched).putBody k =
          getVal current k) ∧
    ((aS.cron = none ∨ k ≠ "cron_format") → (aS.name = none ∨ k ≠ "name") →
     ((aS.active = false ∧ aS.inactive = false) ∨ k ≠ "active") →
        getVal (cmd_schedule_update project i aS current refetched).putBody k =
          getVal current k) ∧
    ((aE.name = none ∨ k ≠ "name") → (aE.json_vars = none ∨ k ≠ "json") →
        getVal (cmd_env_update project i aE current refetched).putBody k =
          getVal current k) ∧
    (∀ s, aT.name = some s →
        getVal (cmd_template_update project i aT current refetched).putBody "name" =
          some (Val.str s)) ∧
    (∀ s, aT.playbook = some s →
        getVal (cmd_template_update project i aT current refetched).putBody "playbook" =
          some (Val.str s)) ∧
    (∀ n, aT.inventory_id = some n →
        getVal (cmd_template_update project i aT current refetched).putBody "inventory_id" =
          some (Val.num n)) ∧
    (∀ n, aT.environment_id = some n →
        getVal (cmd_template_update project i aT current refetched).putBody "environment_id" =
          some (Val.num n)) ∧
    (∀ n, aT.view_id = some n →
        getVal (cmd_template_update project i aT current refetched).putBody "view_id" =
          some (Val.num n)) ∧
    (∀ s, aT.arguments = some s →
        getVal (cmd_template_update project i aT current refetched).putBody "arguments" =
          some (Val.str s)) ∧
    (∀ s, aT.description = some s →
        getVal (cmd_template_update project i aT current refetched).putBody "description" =
          some (Val.str s)) ∧
    (∀ s, aS.cron = some s →
        getVal (cmd_schedule_update project i aS current refetched).putBody "cron_format" =
          some (Val.str s)) ∧
    (∀ s, aS.name = some s →
        getVal (cmd_schedule_update project i aS current refetched).putBody "name" =
          some (Val.str s)) ∧
    (aS.inactive = true →
        getVal (cmd_schedule_update project i aS current refetched).putBody "active" =
          some (Val.bool false)) ∧
    (aS.active = true → aS.inactive = false →
        getVal (cmd_schedule_update project i aS current refetched).putBody "active" =
          some (Val.bool true)) ∧
    (∀ s, aE.name = some s →
        getVal (cmd_env_update project i aE current refetched).putBody "name" =
          some (Val.str s)) ∧
    (∀ s, aE.json_vars = some s →
        getVal (cmd_env_update project i aE current refetched).putBody "json" =
          some (Val.str s)) := by
  have hT := templateMerge_sets current aT
  have hS := scheduleMerge_sets current aS
  have hE := envMerge_sets current aE
  exact ⟨⟨rfl, rfl, rfl⟩,
    templateMerge_frame current aT k,
    scheduleMerge_frame current aS k,
    envMerge_frame current aE k,
    hT.1, hT.2.1, hT.2.2.1, hT.2.2.2.1, hT.2.2.2.2.1, hT.2.2.2.2.2.1, hT.2.2.2.2.2.2,
    hS.1, hS.2.1, hS.2.2.1, hS.2.2.2,
    hE.1, hE.2⟩

/-- C6 witness: `template update` supplying only `--name` keeps the fetched
`repository_id` in the PUT body and overwrites `name`; `schedule update`
supplying no flags keeps `active`; `env update --json` overwrites `json`. -/
theorem C6_update_witness :
    getVal (cmd_template_update 1 9
        ⟨some "New", none, none, none, none, none, none⟩
        [("name", Val.str "Old"), ("repository_id", Val.num 1)] []).putBody
      "repository_id" = some (Val.num 1) ∧
    getVal (cmd_template_update 1 9
        ⟨some "New", none, none, none, none, none, none⟩
        [("name", Val.str "Old"), ("repository_id", Val.num 1)] []).putBody
      "name" = some (Val.str "New") ∧
    getVal (cmd_schedule_update 1 9 ⟨none, none, false, false⟩
        [("active", Val.bool true)] []).putBody "active" = some (Val.bool true) ∧
    getVal (cmd_env_update 1 9 ⟨none, some "A"⟩
        [("json", Val.str "B")] []).putBody "json" = some (Val.str "A") := by
  have h1 := C6_update_theorem 1 9
    [("name", Val.str "Old"), ("repository_id", Val.num 1)] [] "repository_id"
    ⟨some "New", none, none, none, none, none, none⟩
    ⟨none, none, false, false⟩ ⟨none, some "A"⟩
  have h2 := C6_update_theorem 1 9 [("active", Val.bool true)] [] "active"
    ⟨some "New", none, none, none, none, none, none⟩
    ⟨none, none, false, false⟩ ⟨none, some "A"⟩
  have h3 := C6_update_theorem 1 9 [("json", Val.str "B")] [] "json"
    ⟨some "New", none, none, none, none, none, none⟩
    ⟨none, none, false, false⟩ ⟨none, some "A"⟩
  refine ⟨?_, ?_, ?_, ?_⟩
  · have := h1.2.1 (Or.inr (by decide)) (Or.inl rfl) (Or.inl rfl) (Or.inl rfl)
      (Or.inl rfl) (Or.inl rfl) (Or.inl rfl)
    rw [this]
    decide
  · exact h1.2.2.2.2.1 "New" rfl
  · have := h2.2.2.1 (Or.inl rfl) (Or.inl rfl) (Or.inl ⟨rfl, rfl⟩)
    rw [this]
    decide
  · exact (h3.2.2.2.2.2.2.2.2.2.2.2.2.2.2.2.2) "A" rfl

end SemaphoreCli

-- ---------------------------------------------------------------------------
-- C7: `db_cli.format_table` (lines 135-156)
-- ---------------------------------------------------------------------------

namespace DbCli

open HomelabOps

/-- The truncation of `format_table` (db_cli.py:147-148):
`if len(v) > 80: vals[i] = v[:77] + "..."`. -/
def truncCell (v : List Char) : List Char :=
  if v.length > 80 then v.take 77 ++ "...".toList else v

/-- `str(row.get(c, "") if row.get(c) is not None else "")` (db_cli.py:145):
a missing column or SQL NULL renders as the empty string. -/
def cellOf (row : Obj) (c : String) : List Char :=
  match getVal row c with
  | none => []
  | some Val.null => []
  | some v => (pyStr v).toList

/-- The `str_rows` list built by the loop at db_cli.py:143-150: one list of
(possibly truncated) cell strings per row, in column order. -/
def strRows (rows : List Obj) (columns : List String) : List (List (List Char)) :=
  rows.map fun row => columns.map fun c => truncCell (cellOf row c)

/-- The `widths` list (db_cli.py:142, 149): initialised to the header
lengths, then maxed with each truncated cell length. -/
def widths (headers : List (List Char)) (srows : List (List (List Char))) : List Nat :=
  srows.foldl (fun ws vals => List.zipWith (fun w v => max w v.length) ws vals)
    (headers.map List.length)

/-- Python `s.ljust(w)`. -/
def ljust (s : List Char) (w : Nat) : List Char :=
  s ++ List.replicate (w - s.length) ' '

/-- `sep.join(...)` with `sep = "  "` (db_cli.py:151-155). -/
def sepJoin (parts : List (List Char)) : List Char :=
  List.intercalate "  ".toList parts

/-- `db_cli.format_table` (lines 135-156), as the list of output lines. -/
def format_table (rows : List Obj) (columns : List String)
    (headers : List (List Char)) : List (List Char) :=
  if rows = [] then ["(no results)".toList]
  else
    sepJoin (List.zipWith ljust headers (widths headers (strRows rows columns)))
      :: sepJoin ((widths headers (strRows rows columns)).map
           fun w => List.replicate w '─')
      :: (strRows rows columns).map
           fun vals => sepJoin (List.zipWith ljust vals
             (widths headers (strRows rows columns)))

theorem truncCell_length_le (v : List Char) : (truncCell v).length ≤ 80 := by
  unfold truncCell
  by_cases h : v.length > 80
  · rw [if_pos h, List.length_append, List.length_take,
        show ("...".toList).length = 3 from rfl]
    omega
  · rw [if_neg h]
    omega

theorem foldl_max_spec (base : Nat) (lst : List Nat) :
    base ≤ lst.foldl max base ∧ (∀ x ∈ lst, x ≤ lst.foldl max base) ∧
    (lst.foldl max base = base ∨ lst.foldl max base ∈ lst) := by
  induction lst generalizing base with
  | nil => simp
  | cons x xs ih =>
    rcases ih (max base x) with ⟨h1, h2, h3⟩
    rw [List.foldl_cons]
    refine ⟨le_trans (le_max_left _ _) h1, ?_, ?_⟩
    · intro y hy
      rcases List.mem_cons.mp hy with rfl | hy
      · exact le_trans (le_max_right _ _) h1
      · exact h2 y hy
    · rcases h3 with h | h
      · rcases Nat.le_total x base with hx | hx
        · exact Or.inl (h.trans (Nat.max_eq_left hx))
        · refine Or.inr ?_
          rw [h, Nat.max_eq_right hx]
          exact List.mem_cons_self x xs
      · exact Or.inr (List.mem_cons_of_mem x h)

theorem widths_getD (srows : List (List (List Char))) (init : List Nat) (i : Nat)
    (hi : i < init.length)
    (hlen : ∀ r ∈ srows, r.length = init.length) :
    (srows.foldl (fun ws vals => List.zipWith (fun w v => max w v.length) ws vals)
        init).getD i 0
      = (srows.map fun r => (r.getD i []).length).foldl max (init.getD i 0) := by
  induction srows generalizing init with
  | nil => rfl
  | cons r rest ih =>
    have hr : r.length = init.length := hlen r (List.mem_cons_self _ _)
    have hzlen : (List.zipWith (fun w v => max w v.length) init r).length
        = init.length := by
      rw [List.length_zipWith, hr, Nat.min_self]
    rw [List.foldl_cons, List.map_cons, List.foldl_cons]
    rw [ih _ (by rw [hzlen]; exact hi)
        (fun r' hr' => by rw [hzlen]; exact hlen r' (List.mem_cons_of_mem _ hr'))]
    congr 1
    have h2 : i < r.length := by rw [hr]; exact hi
    have : (List.zipWith (fun w v => max w v.length) init r)[i]?
        = some (max init[i] r[i].length) := by
      rw [List.getElem?_zipWith', List.getElem?_eq_getElem hi,
          List.getElem?_eq_getElem h2]
      rfl
    rw [List.getD_eq_getElem?_getD, this, List.getD_eq_getElem _ _ hi,
        List.getD_eq_getElem _ _ h2]
    rfl

/-- C7: every cell rendered by `format_table` is the possibly-truncated cell
string — at most 80 characters, hence no wider than the 80-character
truncation limit plus the 3-character ellipsis; an over-long cell becomes its
first 77 characters plus `"..."`; and each column's width is the maximum of
the header length and the (possibly truncated) cell lengths of that column:
it bounds all of them and is attained by one of them. -/
theorem C7_table_theorem (rows : List Obj) (columns : List String)
    (headers : List (List Char)) (i : Nat)
    (hi : i < headers.length) (hc : headers.length = columns.length) :
    (∀ v : List Char, (truncCell v).length ≤ 80 ∧
       (truncCell v).length ≤ 80 + "...".toList.length ∧
       (v.length > 80 → truncCell v = v.take 77 ++ "...".toList)) ∧
    (∀ row ∈ strRows rows columns, ∀ cell ∈ row,
       cell.length ≤ 80 ∧ cell.length ≤ 80 + "...".toList.length) ∧
    ((headers.getD i []).length ≤ (widths headers (strRows rows columns)).getD i 0 ∧
     (∀ row ∈ strRows rows columns,
        ((row.getD i []).length ≤ (widths headers (strRows rows columns)).getD i 0)) ∧
     ((widths headers (strRows rows columns)).getD i 0 = (headers.getD i []).length ∨
      ∃ row ∈ strRows rows columns,
        (row.getD i []).length = (widths headers (strRows rows columns)).getD i 0)) := by
  have htrunc : ∀ v : List Char, (truncCell v).length ≤ 80 ∧
      (truncCell v).length ≤ 80 + "...".toList.length ∧
      (v.length > 80 → truncCell v = v.take 77 ++ "...".toList) := by
    intro v
    refine ⟨truncCell_length_le v, le_trans (truncCell_length_le v) (by omega), ?_⟩
    intro hv
    unfold truncCell
    rw [if_pos hv]
  have hcells : ∀ row ∈ strRows rows columns, ∀ cell ∈ row,
      cell.length ≤ 80 ∧ cell.length ≤ 80 + "...".toList.length := by
    intro row hrow cell hcell
    rcases List.mem_map.mp hrow with ⟨r, _, rfl⟩
    rcases List.mem_map.mp hcell with ⟨c, _, rfl⟩
    exact ⟨truncCell_length_le _, le_trans (truncCell_length_le _) (by omega)⟩
  have hlen : ∀ r ∈ strRows rows columns, r.length = (headers.map List.length).length := by
    intro r hr
    rcases List.mem_map.mp hr with ⟨row, _, rfl⟩
    rw [List.length_map, List.length_map, hc]
  have hinit : i < (headers.map List.length).length := by
    rw [List.length_map]; exact hi
  have hw := widths_getD (strRows rows columns) (headers.map List.length) i hinit hlen
  have hbase : (headers.map List.length).getD i 0 = (headers.getD i []).length := by
    rw [List.getD_eq_getElem _ _ hinit, List.getElem_map, List.getD_eq_getElem _ _ hi]
  rw [hbase] at hw
  have hspec := foldl_max_spec ((headers.getD i []).length)
    ((strRows rows columns).map fun r => (r.getD i []).length)
  refine ⟨htrunc, hcells, ?_, ?_, ?_⟩
  · rw [widths, hw]
    exact hspec.1
  · intro row hrow
    rw [widths, hw]
    exact hspec.2.1 _ (List.mem_map_of_mem _ hrow)
  · rw [widths, hw]
    rcases hspec.2.2 with h | h
    · exact Or.inl h
    · rcases List.mem_map.mp h with ⟨row, hrow, hrl⟩
      exact Or.inr ⟨row, hrow, hrl⟩

/-- C7 witness: the theorem applied to a concrete one-column table whose
single cell is 100 characters long: the rendered cell is 80 characters and
the column width is 80 (the cell's truncated length, exceeding the header). -/
theorem C7_table_witness :
    (truncCell (List.replicate 100 'x')).length ≤ 80 ∧
    ((widths ["h".toList] (strRows [[("c", Val.str (String.mk (List.replicate 100 'x')))]]
        ["c"])).getD 0 0 = (["h".toList].getD 0 []).length ∨
      ∃ row ∈ strRows [[("c", Val.str (String.mk (List.replicate 100 'x')))]] ["c"],
        (row.getD 0 []).length =
          (widths ["h".toList] (strRows [[("c", Val.str (String.mk (List.replicate 100 'x')))]]
            ["c"])).getD 0 0) := by
  have h := C7_table_theorem [[("c", Val.str (String.mk (List.replicate 100 'x')))]]
    ["c"] ["h".toList] 0 (by decide) (by decide)
  exact ⟨(h.1 (List.replicate 100 'x')).1, h.2.2.2.2⟩

end DbCli

-- ---------------------------------------------------------------------------
-- C8: `review.py` `v2_runner_on_ok` (lines 45-53)
-- ---------------------------------------------------------------------------

namespace Review

open HomelabOps

/-- The `msg` payload of a runner result: the scalar or list-of-scalars the
playbook's `debug` module produced (`result._result.get("msg", "")` defaults
to the empty string, i.e. `scalar (Val.str "")`). -/
inductive DebugMsg where
  | scalar (v : Val)
  | list (l : List Val)
  deriving DecidableEq

/-- The parts of an Ansible runner result that `v2_runner_on_ok` reads:
`result._task.action` and `result._result["msg"]` (absent ↦ `none`). -/
structure TaskResult where
  action : String
  msg : Option DebugMsg
  deriving DecidableEq

/-- `review.CallbackModule.v2_runner_on_ok` (review.py:45-53), as the list of
lines written to the display: for a `debug` action, one line per element of a
list payload (via `str(line)`) or a single line for anything else; no output
for any other action. -/
def v2_runner_on_ok (r : TaskResult) : List String :=
  if r.action = "ansible.builtin.debug" ∨ r.action = "debug" then
    match r.msg.getD (DebugMsg.scalar (Val.str "")) with
    | DebugMsg.list l => l.map pyStr
    | DebugMsg.scalar v => [pyStr v]
  else []

/-- C8: a debug-action success event with a list payload displays exactly the
`str` of each element, in order, with no added text; a non-list payload
displays as one line; any other action displays nothing. -/
theorem C8_debug_theorem (r : TaskResult) :
    ((r.action = "ansible.builtin.debug" ∨ r.action = "debug") →
       (∀ l, r.msg = some (DebugMsg.list l) → v2_runner_on_ok r = l.map pyStr) ∧
       (∀ v, r.msg = some (DebugMsg.scalar v) → v2_runner_on_ok r = [pyStr v])) ∧
    (¬(r.action = "ansible.builtin.debug" ∨ r.action = "debug") →
       v2_runner_on_ok r = []) := by
  constructor
  · intro hd
    constructor
    · intro l hl
      unfold v2_runner_on_ok
      rw [if_pos hd, hl]
      rfl
    · intro v hv
      unfold v2_runner_on_ok
      rw [if_pos hd, hv]
      rfl
  · intro hd
    unfold v2_runner_on_ok
    rw [if_neg hd]

/-- C8 witness: a `debug` success event with payload `["one", "two"]` emits
exactly those two lines; a `command` success event emits nothing. -/
theorem C8_debug_witness :
    v2_runner_on_ok ⟨"debug", some (DebugMsg.list [Val.str "one", Val.str "two"])⟩
      = ["one", "two"] ∧
    v2_runner_on_ok ⟨"command", some (DebugMsg.scalar (Val.str "hi"))⟩ = [] := by
  have g1 := C8_debug_theorem
    ⟨"debug", some (DebugMsg.list [Val.str "one", Val.str "two"])⟩
  have g2 := C8_debug_theorem
    ⟨"command", some (DebugMsg.scalar (Val.str "hi"))⟩
  have h1 := g1.1 (Or.inr rfl)
  have h2 := g2.2 (by decide)
  exact ⟨h1.1 _ rfl, h2⟩

end Review

-- ---------------------------------------------------------------------------
-- C9: `db_cli.cmd_config_init` (lines 172-198)
-- ---------------------------------------------------------------------------

namespace DbCli

/-- Observable outcome of `db_cli.cmd_config_init`: whether `save_config` ran,
the `status` field of the printed JSON, the per-database test results, and
the process exit code. -/
structure InitOutcome where
  saved : Bool
  status : String
  dbResults : List (String × String)
  exitCode : Nat
  deriving DecidableEq

/-- `db_cli.cmd_config_init` (lines 172-198): test-connect to each database
(`connect db` is the attempt's outcome), recording `"ok"` or
`"failed: <exception>"`; then save the config unconditionally and print
`status: ok`.  Nothing on this path calls `error`/`sys.exit`, so the exit
code is 0. -/
def cmd_config_init (semaphore_db logging_db : String)
    (connect : String → Except String Unit) : InitOutcome :=
  { saved := true
    status := "ok"
    dbResults := [semaphore_db, logging_db].map fun db =>
      match connect db with
      | Except.ok _ => (db, "ok")
      | Except.error e => (db, "failed: " ++ e)
    exitCode := 0 }

/-- C9: even when the test connections to both databases fail, `config init`
still saves the config, reports status `"ok"`, exits 0, and records the
failures only in the per-database results of the output. -/
theorem C9_init_theorem (sdb ldb : String) (connect : String → Except String Unit)
    (e1 e2 : String)
    (h1 : connect sdb = Except.error e1) (h2 : connect ldb = Except.error e2) :
    (cmd_config_init sdb ldb connect).saved = true ∧
    (cmd_config_init sdb ldb connect).status = "ok" ∧
    (cmd_config_init sdb ldb connect).exitCode = 0 ∧
    (cmd_config_init sdb ldb connect).dbResults =
      [(sdb, "failed: " ++ e1), (ldb, "failed: " ++ e2)] := by
  refine ⟨rfl, rfl, rfl, ?_⟩
  simp [cmd_config_init, h1, h2]

/-- C9 witness: both connections refused; the config is saved anyway with
status `"ok"` and exit code 0. -/
theorem C9_init_witness :
    (cmd_config_init "semaphore" "ansible_logging"
        (fun _ => Except.error "refused")).saved = true ∧
    (cmd_config_init "semaphore" "ansible_logging"
        (fun _ => Except.error "refused")).status = "ok" ∧
    (cmd_config_init "semaphore" "ansible_logging"
        (fun _ => Except.error "refused")).exitCode = 0 ∧
    (cmd_config_init "semaphore" "ansible_logging"
        (fun _ => Except.error "refused")).dbResults =
      [("semaphore", "failed: refused"), ("ansible_logging", "failed: refused")] :=
  C9_init_theorem "semaphore" "ansible_logging" (fun _ => Except.error "refused")
    "refused" "refused" rfl rfl

end DbCli

-- ---------------------------------------------------------------------------
-- C10: `semaphore_cli.format_table` (lines 90-109)
-- ---------------------------------------------------------------------------

namespace SemaphoreCli

/-- The truncation of the semaphore CLI's `format_table`
(semaphore_cli.py:100-101): `if len(v) > 60: vals[i] = v[:57] + "..."`. -/
def truncCell60 (v : List Char) : List Char :=
  if v.length > 60 then v.take 57 ++ "...".toList else v

/-- `str(row.get(c, ""))` (semaphore_cli.py:98); unlike the db CLI there is
no `is not None` guard, so a JSON null renders as `"None"`. -/
def cellOf (row : Obj) (c : String) : List Char :=
  match getVal row c with
  | none => []
  | some v => (pyStr v).toList

/-- The `str_rows` list of the semaphore CLI's `format_table` (lines 96-103). -/
def strRows (rows : List Obj) (columns : List String) : List (List (List Char)) :=
  rows.map fun row => columns.map fun c => truncCell60 (cellOf row c)

/-- The `widths` list (semaphore_cli.py:95, 102). -/
def widths (headers : List (List Char)) (srows : List (List (List Char))) : List Nat :=
  srows.foldl (fun ws vals => List.zipWith (fun w v => max w v.length) ws vals)
    (headers.map List.length)

/-- `semaphore_cli.format_table` (lines 90-109), as the list of output lines;
an empty row list short-circuits to `"(no results)"`. -/
def format_table (rows : List Obj) (columns : List String)
    (headers : List (List Char)) : List (List Char) :=
  if rows = [] then ["(no results)".toList]
  else
    DbCli.sepJoin (List.zipWith DbCli.ljust headers (widths headers (strRows rows columns)))
      :: DbCli.sepJoin ((widths headers (strRows rows columns)).map
           fun w => List.replicate w '─')
      :: (strRows rows columns).map
           fun vals => DbCli.sepJoin (List.zipWith DbCli.ljust vals
             (widths headers (strRows rows columns)))

/-- C10: the semaphore CLI's table renderer truncates any cell longer than 60
characters to its first 57 plus `"..."` (a 60-character limit, in contrast to
the db CLI, whose renderer leaves a 61-character cell untouched), and renders
an empty row list as `"(no results)"`. -/
theorem C10_table_theorem (v : List Char) (hv : v.length > 60) :
    truncCell60 v = v.take 57 ++ "...".toList ∧
    (truncCell60 v).length = 60 ∧
    (∀ (columns : List String) (headers : List (List Char)),
       format_table [] columns headers = ["(no results)".toList]) ∧
    truncCell60 (List.replicate 61 'a') ≠ List.replicate 61 'a' ∧
    DbCli.truncCell (List.replicate 61 'a') = List.replicate 61 'a' := by
  refine ⟨?_, ?_, ?_, ?_, ?_⟩
  · unfold truncCell60
    rw [if_pos hv]
  · unfold truncCell60
    rw [if_pos hv, List.length_append, List.length_take,
        show ("...".toList).length = 3 from rfl]
    omega
  · intro columns headers
    rfl
  · decide
  · decide

/-- C10 witness: the theorem applied to a concrete 61-character cell. -/
theorem C10_table_witness :
    truncCell60 (List.replicate 61 'b')
      = (List.replicate 61 'b').take 57 ++ "...".toList ∧
    (truncCell60 (List.replicate 61 'b')).length = 60 ∧
    format_table [] ["c"] ["h".toList] = ["(no results)".toList] := by
  have h := C10_table_theorem (List.replicate 61 'b') (by decide)
  exact ⟨h.1, h.2.1, h.2.2.1 ["c"] ["h".toList]⟩

end SemaphoreCli

end HomelabOps
